import Mathlib

/-!
Shallow embedding of `src/app.py` (a small Flask application with a JSON
file user store, werkzeug password hashing, and session-guarded routes).

Modelling conventions:

* The durable store `users.json` is modelled by `StoreFile`: the file may be
  absent (`missing`), present but impossible to open (`unreadable`, e.g. a
  permission error — Python's `open` then raises an `OSError` that is *not*
  a `FileNotFoundError`), present but not valid JSON (`corrupt`, Python's
  `json.load` raises `json.JSONDecodeError`), or present and well formed
  (`ok`, carrying the parsed `{"users": [...]}` payload).  The JSON text
  layer itself (escaping, whitespace) is the standard library's
  responsibility and is modelled as faithful at the value level.
* Python exceptions that escape a handler are modelled with `Except PyError`.
* Flask's `request.form.get(k, '')` is modelled by passing the form fields
  as plain strings (a missing field is the empty string).
* The client session is modelled by the single key the application uses,
  `session['username'] : Option String`.
* `logging.error` calls are modelled by companion `*_logs` functions that
  report what a call would log, so that "logs and recovers" claims are
  statable without threading a log through every computation.
* The nondeterministic salt drawn by werkzeug and the success of the file
  write are passed as explicit parameters (`salt`, `writeOk`).
-/

/-- One record of the `"users"` array of `users.json`:
`{"username": ..., "password_hash": ...}`. -/
structure UserRecord where
  username : String
  password_hash : String
deriving DecidableEq

/-- The top-level JSON object stored in `users.json`: `{"users": [...]}`. -/
structure UsersData where
  users : List UserRecord
deriving DecidableEq

/-- States of the durable file `users.json` as seen by `open` + `json.load`. -/
inductive StoreFile where
  | missing
  | unreadable
  | corrupt
  | ok (data : UsersData)
deriving DecidableEq

/-- A Python exception escaping a handler.  The only uncaught exception the
modelled code can raise is an `OSError` (other than `FileNotFoundError`)
from opening an existing but unreadable store file. -/
inductive PyError where
  | osError
deriving DecidableEq

/-- `load_users` (src/app.py:17-26): reads and parses `users.json`.
`FileNotFoundError` is caught and yields `{"users": []}`;
`json.JSONDecodeError` is caught, logged, and yields `{"users": []}`.
Any other `OSError` from `open` (existing but unreadable file) is *not*
caught and propagates. -/
def load_users : StoreFile → Except PyError UsersData
  | .missing => .ok ⟨[]⟩
  | .unreadable => .error .osError
  | .corrupt => .ok ⟨[]⟩
  | .ok d => .ok d

/-- What `load_users` logs on each file state (src/app.py:25 logs only in
the `json.JSONDecodeError` branch). -/
def load_users_logs : StoreFile → List String
  | .missing => []
  | .unreadable => []
  | .corrupt => ["Error decoding users.json"]
  | .ok _ => []

/-- `save_users` (src/app.py:28-34): overwrites `users.json` with the given
payload.  The whole body is wrapped in `try/except Exception`, so no error
ever reaches the caller; `writeOk` says whether the write succeeded.  A
failed write is modelled as leaving the file as it was. -/
def save_users (file : StoreFile) (writeOk : Bool) (users_data : UsersData) : StoreFile :=
  if writeOk then .ok users_data else file

/-- What `save_users` logs (src/app.py:34 logs only when the write raised). -/
def save_users_logs (writeOk : Bool) : List String :=
  if writeOk then [] else ["Error saving users"]

/-- Models werkzeug's `generate_password_hash` at the interface level (the
library is an external collaborator; its scrypt digest is not modelled).
The contract kept: the result is a method/salt header followed by a `'$'`
and a digest determined by the password, it is never equal to the plaintext,
and `check_password_hash` accepts exactly the original password.  werkzeug
salts are drawn from letters and digits, so the salt contains no `'$'`;
lemmas assume that of the `salt` argument. -/
def generate_password_hash (salt password : String) : String :=
  ⟨("scrypt:32768:8:1:" ++ salt).data ++ '$' :: password.data⟩

/-- Models werkzeug's `check_password_hash`: split the stored value at its
first `'$'` into header and digest and compare the digest against the one
the supplied password produces.  A stored value with no `'$'` (malformed)
verifies nothing, as in werkzeug. -/
def check_password_hash (pwhash password : String) : Bool :=
  match pwhash.data.dropWhile (fun c => c ≠ '$') with
  | [] => false
  | _ :: digest => digest = password.data

/-- `find_user` (src/app.py:36-42): linear scan of the loaded store for an
exact match; `None` when absent.  Propagates whatever `load_users` raises. -/
def find_user (file : StoreFile) (username : String) : Except PyError (Option UserRecord) := do
  let users_data ← load_users file
  pure (users_data.users.find? (fun user => user.username = username))

/-- Python's `str.strip()` with no argument: remove leading and trailing
whitespace.  Defined structurally over the character list so that it
evaluates by kernel reduction. -/
def py_strip (s : String) : String :=
  ⟨((s.data.dropWhile Char.isWhitespace).reverse.dropWhile Char.isWhitespace).reverse⟩

/-- The Flask session, restricted to the single key the application uses
(`session['username']`); `none` is the anonymous state. -/
structure Session where
  username : Option String
deriving DecidableEq

/-- The page responses the modelled handlers can produce. -/
inductive Resp where
  | renderLogin
  | redirectLogin
  | redirectDashboard
  | renderDashboard (username : String)
deriving DecidableEq

/-- The observable outcome of a page handler: the response, the flash
message (text, category) if any, the session afterwards, and the durable
file afterwards. -/
structure HResult where
  response : Resp
  flash : Option (String × String)
  session : Session
  file : StoreFile
deriving DecidableEq

/-- The POST branch of `login` (src/app.py:51-70).  The username is
stripped, the password is used verbatim; `if user and check_password_hash`
is Python truthiness on the `find_user` result. -/
def login_post (file : StoreFile) (sess : Session) (form_username form_password : String) :
    Except PyError HResult := do
  let username := py_strip form_username
  let password := form_password
  if username = "" ∨ password = "" then
    pure ⟨.renderLogin, some ("Please fill in all fields", "error"), sess, file⟩
  else
    let user ← find_user file username
    let credentials_ok := match user with
      | some u => check_password_hash u.password_hash password
      | none => false
    if credentials_ok then
      pure ⟨.redirectDashboard, some ("Welcome back, pixel warrior!", "success"),
            ⟨some username⟩, file⟩
    else
      pure ⟨.renderLogin, some ("Invalid credentials. Try again!", "error"), sess, file⟩

/-- `register` (src/app.py:72-107).  `salt` is the salt werkzeug draws for
`generate_password_hash`; `writeOk` is whether the `save_users` write
succeeds. -/
def register (file : StoreFile) (sess : Session) (salt : String) (writeOk : Bool)
    (form_username form_password : String) : Except PyError HResult := do
  let username := py_strip form_username
  let password := form_password
  if username = "" ∨ password = "" then
    pure ⟨.redirectLogin, some ("Please fill in all fields", "error"), sess, file⟩
  else if username.length < 3 then
    pure ⟨.redirectLogin, some ("Username must be at least 3 characters", "error"), sess, file⟩
  else if password.length < 6 then
    pure ⟨.redirectLogin, some ("Password must be at least 6 characters", "error"), sess, file⟩
  else do
    let existing ← find_user file username
    if existing.isSome then
      pure ⟨.redirectLogin, some ("Username already exists", "error"), sess, file⟩
    else
      let users_data ← load_users file
      let new_user : UserRecord := ⟨username, generate_password_hash salt password⟩
      let users_data2 : UsersData := ⟨users_data.users ++ [new_user]⟩
      let file2 := save_users file writeOk users_data2
      pure ⟨.redirectDashboard, some ("Account created successfully! Welcome!", "success"),
            ⟨some username⟩, file2⟩

/-- `dashboard` (src/app.py:109-116): requires a logged-in session,
otherwise redirects to the login page. -/
def dashboard (file : StoreFile) (sess : Session) : HResult :=
  match sess.username with
  | none => ⟨.redirectLogin, some ("Please log in first", "error"), sess, file⟩
  | some u => ⟨.renderDashboard u, none, sess, file⟩

/-- The upstream proxy call's outcome, an external collaborator:
an HTTP status code, a timeout, or a connection error. -/
inductive Upstream where
  | status (code : Nat)
  | timeout
  | connError
deriving DecidableEq

/-- A JSON API response: a success or an error body, with HTTP status. -/
inductive ApiResp where
  | success (message : String) (status : Nat)
  | failure (error : String) (status : Nat)
deriving DecidableEq

/-- Python's `str.isdigit`: nonempty and all digits. -/
def py_isdigit (s : String) : Bool :=
  !s.isEmpty && s.data.all Char.isDigit

/-- `send_like` (src/app.py:125-180): session guard, UID validation, then
the mapping of the upstream like-API outcome onto the JSON response. -/
def send_like (sess : Session) (uid_raw : String) (upstream : Upstream) : ApiResp :=
  if sess.username.isNone then .failure "Not authenticated" 401
  else
    let uid := py_strip uid_raw
    if uid = "" then .failure "UID is required" 400
    else if py_isdigit uid = false ∨ uid.length < 6 then .failure "Invalid UID format" 400
    else
      match upstream with
      | .status 200 => .success "Like sent successfully!" 200
      | .status 404 => .failure "Player not found" 404
      | .status 429 => .failure "Rate limit exceeded. Please try again later." 429
      | .status code => .failure ("API returned status code: " ++ toString code) 500
      | .timeout => .failure "Request timed out. Please try again." 500
      | .connError => .failure "Failed to connect to API" 500

/-- `view_profile` (src/app.py:182-230): same guard and UID validation as
`send_like`, with the profile API's response mapping (no 429 branch; the
success body carries only the proxied data, no message). -/
def view_profile (sess : Session) (uid_raw : String) (upstream : Upstream) : ApiResp :=
  if sess.username.isNone then .failure "Not authenticated" 401
  else
    let uid := py_strip uid_raw
    if uid = "" then .failure "UID is required" 400
    else if py_isdigit uid = false ∨ uid.length < 6 then .failure "Invalid UID format" 400
    else
      match upstream with
      | .status 200 => .success "" 200
      | .status 404 => .failure "Player not found" 404
      | .status code => .failure ("API returned status code: " ++ toString code) 500
      | .timeout => .failure "Request timed out. Please try again." 500
      | .connError => .failure "Failed to connect to API" 500

/-! Interface lemmas for the password-hash model. -/

theorem dropWhile_append_dollar (l rest : List Char) (h : ∀ c ∈ l, c ≠ '$') :
    (l ++ '$' :: rest).dropWhile (fun c => c ≠ '$') = '$' :: rest := by
  induction l with
  | nil => simp [List.dropWhile]
  | cons a l ih =>
    have ha : a ≠ '$' := h a (List.mem_cons_self ..)
    rw [List.cons_append, List.dropWhile_cons, if_pos (decide_eq_true ha)]
    exact ih fun c hc => h c (List.mem_cons_of_mem _ hc)

theorem generate_data (salt password : String) :
    (generate_password_hash salt password).data =
      ("scrypt:32768:8:1:" ++ salt).data ++ '$' :: password.data := rfl

theorem scrypt_header_no_dollar : ∀ c ∈ "scrypt:32768:8:1:".data, c ≠ '$' := by decide

theorem header_no_dollar (salt : String) (hs : '$' ∉ salt.data) :
    ∀ c ∈ ("scrypt:32768:8:1:" ++ salt).data, c ≠ '$' := by
  intro c hc
  rw [String.data_append] at hc
  rcases List.mem_append.mp hc with h | h
  · exact scrypt_header_no_dollar c h
  · exact fun hcd => hs (hcd ▸ h)

/-- Completeness of the modelled werkzeug contract: a generated hash
verifies against the password it was generated from. -/
theorem check_generate_self (salt password : String) (hs : '$' ∉ salt.data) :
    check_password_hash (generate_password_hash salt password) password = true := by
  unfold check_password_hash
  rw [generate_data, dropWhile_append_dollar _ _ (header_no_dollar salt hs)]
  simp

/-- Soundness of the modelled werkzeug contract: a generated hash verifies
only the password it was generated from. -/
theorem check_generate_ne (salt password other : String) (hs : '$' ∉ salt.data)
    (hne : other ≠ password) :
    check_password_hash (generate_password_hash salt password) other = false := by
  unfold check_password_hash
  rw [generate_data, dropWhile_append_dollar _ _ (header_no_dollar salt hs)]
  simp only [decide_eq_false_iff_not]
  exact fun hd => hne (String.ext hd.symm)

/-- A generated hash is never the plaintext (it is strictly longer). -/
theorem generate_ne_password (salt password : String) :
    generate_password_hash salt password ≠ password := by
  intro h
  have hlen : (generate_password_hash salt password).data.length = password.data.length := by
    rw [h]
  rw [generate_data, List.length_append, List.length_cons] at hlen
  omega

/-! General-purpose helper lemmas. -/

theorem str_ne_empty_of_le (p : String) (n : Nat) (hn : 0 < n) (h : n ≤ p.length) : p ≠ "" := by
  intro he
  rw [he] at h
  simp [String.length] at h
  omega

theorem find?_append_of_none {α : Type} (p : α → Bool) (l1 l2 : List α)
    (h : l1.find? p = none) : (l1 ++ l2).find? p = l2.find? p := by
  induction l1 with
  | nil => simp
  | cons a l ih =>
    cases hpa : p a with
    | true => simp [List.find?_cons, hpa] at h
    | false =>
      simp only [List.find?_cons, hpa] at h
      simp only [List.cons_append, List.find?_cons, hpa]
      exact ih h

/-! Shared lemmas about the handlers. -/

/-- The happy path of `register`: all four checks pass, the new record is
appended and written, the session is bound, success is flashed —
independently of whether the durable write succeeds. -/
theorem register_ok (file : StoreFile) (sess : Session) (salt : String) (writeOk : Bool)
    (raw p : String) (d : UsersData)
    (hload : load_users file = .ok d)
    (habs : d.users.find? (fun u => u.username = py_strip raw) = none)
    (hul : 3 ≤ (py_strip raw).length) (hpl : 6 ≤ p.length) :
    register file sess salt writeOk raw p =
      .ok ⟨.redirectDashboard, some ("Account created successfully! Welcome!", "success"),
           ⟨some (py_strip raw)⟩,
           save_users file writeOk
             ⟨d.users ++ [⟨py_strip raw, generate_password_hash salt p⟩]⟩⟩ := by
  have hu : py_strip raw ≠ "" := str_ne_empty_of_le _ 3 (by omega) hul
  have hp : p ≠ "" := str_ne_empty_of_le _ 6 (by omega) hpl
  simp only [register, find_user, hload, bind, Except.bind, pure, Except.pure]
  rw [if_neg (by simp [hu, hp])]
  rw [if_neg (by omega)]
  rw [if_neg (by omega)]
  rw [habs]
  rfl

/-- The happy path of `login_post`: nonempty fields, the stripped username
is found, and its stored hash verifies the supplied password. -/
theorem login_post_ok (file : StoreFile) (sess : Session) (raw p : String) (rec : UserRecord)
    (hu : py_strip raw ≠ "") (hp : p ≠ "")
    (hfound : find_user file (py_strip raw) = .ok (some rec))
    (hcheck : check_password_hash rec.password_hash p = true) :
    login_post file sess raw p =
      .ok ⟨.redirectDashboard, some ("Welcome back, pixel warrior!", "success"),
           ⟨some (py_strip raw)⟩, file⟩ := by
  simp only [login_post, bind, Except.bind, pure, Except.pure, hfound]
  rw [if_neg (by simp [hu, hp])]
  simp only [hcheck]
  rfl

/-- The generic failure path of `login_post`: nonempty fields and Python's
`user and check_password_hash(...)` is falsy (unknown user, or a stored
hash that does not verify the supplied password). -/
theorem login_post_fail_unknown (file : StoreFile) (sess : Session) (raw p : String)
    (hu : py_strip raw ≠ "") (hp : p ≠ "")
    (hfound : find_user file (py_strip raw) = .ok none) :
    login_post file sess raw p =
      .ok ⟨.renderLogin, some ("Invalid credentials. Try again!", "error"), sess, file⟩ := by
  simp only [login_post, bind, Except.bind, pure, Except.pure, hfound]
  rw [if_neg (by simp [hu, hp])]
  rfl

theorem login_post_fail_wrong_password (file : StoreFile) (sess : Session) (raw p : String)
    (rec : UserRecord)
    (hu : py_strip raw ≠ "") (hp : p ≠ "")
    (hfound : find_user file (py_strip raw) = .ok (some rec))
    (hcheck : check_password_hash rec.password_hash p = false) :
    login_post file sess raw p =
      .ok ⟨.renderLogin, some ("Invalid credentials. Try again!", "error"), sess, file⟩ := by
  simp only [login_post, bind, Except.bind, pure, Except.pure, hfound]
  rw [if_neg (by simp [hu, hp])]
  simp only [hcheck]
  rfl

/-- First `register` check: an empty stripped username or empty password
flashes the fill-in error. -/
theorem register_empty_fields (file : StoreFile) (sess : Session) (salt : String)
    (writeOk : Bool) (raw p : String)
    (h : py_strip raw = "" ∨ p = "") :
    register file sess salt writeOk raw p =
      .ok ⟨.redirectLogin, some ("Please fill in all fields", "error"), sess, file⟩ := by
  simp only [register, bind, Except.bind, pure, Except.pure]
  rw [if_pos h]

/-- Second `register` check: a nonempty stripped username shorter than 3
characters flashes the username-length error. -/
theorem register_short_username (file : StoreFile) (sess : Session) (salt : String)
    (writeOk : Bool) (raw p : String)
    (hne : ¬(py_strip raw = "" ∨ p = "")) (hlen : (py_strip raw).length < 3) :
    register file sess salt writeOk raw p =
      .ok ⟨.redirectLogin, some ("Username must be at least 3 characters", "error"),
           sess, file⟩ := by
  simp only [register, bind, Except.bind, pure, Except.pure]
  rw [if_neg hne, if_pos hlen]

/-- Third `register` check: a password shorter than 6 characters flashes
the password-length error. -/
theorem register_short_password (file : StoreFile) (sess : Session) (salt : String)
    (writeOk : Bool) (raw p : String)
    (hne : ¬(py_strip raw = "" ∨ p = "")) (hulen : ¬(py_strip raw).length < 3)
    (hplen : p.length < 6) :
    register file sess salt writeOk raw p =
      .ok ⟨.redirectLogin, some ("Password must be at least 6 characters", "error"),
           sess, file⟩ := by
  simp only [register, bind, Except.bind, pure, Except.pure]
  rw [if_neg hne, if_neg hulen, if_pos hplen]

/-- Fourth `register` check: a username already present flashes the
duplicate error and the durable file is returned unchanged. -/
theorem register_duplicate (file : StoreFile) (sess : Session) (salt : String)
    (writeOk : Bool) (raw p : String) (rec : UserRecord)
    (hne : ¬(py_strip raw = "" ∨ p = "")) (hulen : ¬(py_strip raw).length < 3)
    (hplen : ¬p.length < 6)
    (hdup : find_user file (py_strip raw) = .ok (some rec)) :
    register file sess salt writeOk raw p =
      .ok ⟨.redirectLogin, some ("Username already exists", "error"), sess, file⟩ := by
  simp only [register, hdup, bind, Except.bind, pure, Except.pure]
  rw [if_neg hne, if_neg hulen, if_neg hplen]
  rfl

/-- Every completed `login_post` returns the durable file it was given:
no branch of the login handler writes the store. -/
theorem login_post_file_unchanged (file : StoreFile) (sess : Session) (raw p : String)
    (res : HResult) (h : login_post file sess raw p = .ok res) : res.file = file := by
  simp only [login_post, bind, Except.bind, pure, Except.pure] at h
  split at h
  · cases h; rfl
  · cases hf : find_user file (py_strip raw) with
    | error e => rw [hf] at h; cases h
    | ok user? =>
      rw [hf] at h
      cases user? with
      | none => simp only [] at h; split at h <;> (cases h; rfl)
      | some u => simp only [] at h; split at h <;> (cases h; rfl)

/-- Exhaustive enumeration of the flash messages a completed `register`
can produce, with the branch condition that produced each error. -/
theorem register_flash_cases (file : StoreFile) (sess : Session) (salt : String)
    (writeOk : Bool) (raw p : String) (res : HResult)
    (h : register file sess salt writeOk raw p = .ok res) :
    (res.flash = some ("Please fill in all fields", "error") ∧ (py_strip raw = "" ∨ p = "")) ∨
    (res.flash = some ("Username must be at least 3 characters", "error") ∧
      (py_strip raw).length < 3) ∨
    (res.flash = some ("Password must be at least 6 characters", "error") ∧ p.length < 6) ∨
    res.flash = some ("Username already exists", "error") ∨
    res.flash = some ("Account created successfully! Welcome!", "success") := by
  simp only [register, bind, Except.bind, pure, Except.pure] at h
  split at h
  next hc => cases h; exact .inl ⟨rfl, hc⟩
  next hc =>
    split at h
    next hc2 => cases h; exact .inr (.inl ⟨rfl, hc2⟩)
    next hc2 =>
      split at h
      next hc3 => cases h; exact .inr (.inr (.inl ⟨rfl, hc3⟩))
      next hc3 =>
        cases hf : find_user file (py_strip raw) with
        | error e => rw [hf] at h; cases h
        | ok user? =>
          rw [hf] at h
          cases user? with
          | some u =>
            simp only [Option.isSome] at h
            cases h
            exact .inr (.inr (.inr (.inl rfl)))
          | none =>
            simp only [Option.isSome] at h
            cases hl : load_users file with
            | error e => rw [hl] at h; cases h
            | ok d => rw [hl] at h; cases h; exact .inr (.inr (.inr (.inr rfl)))

/-! Claim theorems. -/

/-- C1: for every valid (username, password) pair whose username is not
already in the store, `register` succeeds, the store afterwards contains
exactly one record for that username, that record's hash is not the
plaintext password but verifies against it, and a subsequent `login` with
the same pair succeeds. -/
theorem register_fresh_then_login
    (file : StoreFile) (sess sess2 : Session) (salt raw password : String) (d : UsersData)
    (hs : '$' ∉ salt.data)
    (hload : load_users file = .ok d)
    (habs : d.users.find? (fun u => u.username = (py_strip raw)) = none)
    (hul : 3 ≤ (py_strip raw).length) (hpl : 6 ≤ password.length) :
    register file sess salt true raw password =
      .ok ⟨.redirectDashboard, some ("Account created successfully! Welcome!", "success"),
           ⟨some (py_strip raw)⟩,
           .ok ⟨d.users ++ [⟨(py_strip raw), generate_password_hash salt password⟩]⟩⟩ ∧
    (d.users ++ [(⟨py_strip raw, generate_password_hash salt password⟩ : UserRecord)]).filter
        (fun u => u.username = py_strip raw) =
      [(⟨py_strip raw, generate_password_hash salt password⟩ : UserRecord)] ∧
    generate_password_hash salt password ≠ password ∧
    check_password_hash (generate_password_hash salt password) password = true ∧
    login_post (.ok ⟨d.users ++ [⟨(py_strip raw), generate_password_hash salt password⟩]⟩) sess2
        raw password =
      .ok ⟨.redirectDashboard, some ("Welcome back, pixel warrior!", "success"),
           ⟨some (py_strip raw)⟩,
           .ok ⟨d.users ++ [⟨(py_strip raw), generate_password_hash salt password⟩]⟩⟩ := by
  have hu : (py_strip raw) ≠ "" := str_ne_empty_of_le _ 3 (by omega) hul
  have hp : password ≠ "" := str_ne_empty_of_le _ 6 (by omega) hpl
  refine ⟨?_, ?_, generate_ne_password salt password, check_generate_self salt password hs, ?_⟩
  · rw [register_ok file sess salt true raw password d hload habs hul hpl]
    simp [save_users]
  · have hnone := List.find?_eq_none.mp habs
    rw [List.filter_append, List.filter_eq_nil_iff.mpr hnone]
    simp
  · refine login_post_ok _ _ _ _ ⟨py_strip raw, generate_password_hash salt password⟩ hu hp ?_
      (check_generate_self salt password hs)
    simp only [find_user, load_users, bind, Except.bind, pure, Except.pure]
    rw [find?_append_of_none _ _ _ habs, List.find?_cons_of_pos _ (by simp)]

/-- Witness for C1 at the spec's own scenario: empty store,
`register("ann", "secret1")`. -/
theorem register_fresh_then_login_witness :
    register (.ok ⟨[]⟩) ⟨none⟩ "abc" true "ann" "secret1" =
      .ok ⟨.redirectDashboard, some ("Account created successfully! Welcome!", "success"),
           ⟨some (py_strip "ann")⟩,
           .ok ⟨[] ++ [⟨(py_strip "ann"), generate_password_hash "abc" "secret1"⟩]⟩⟩ ∧
    (([] ++ [⟨py_strip "ann", generate_password_hash "abc" "secret1"⟩] :
        List UserRecord)).filter (fun u => u.username = py_strip "ann") =
      [(⟨py_strip "ann", generate_password_hash "abc" "secret1"⟩ : UserRecord)] ∧
    generate_password_hash "abc" "secret1" ≠ "secret1" ∧
    check_password_hash (generate_password_hash "abc" "secret1") "secret1" = true ∧
    login_post (.ok ⟨[] ++ [⟨(py_strip "ann"), generate_password_hash "abc" "secret1"⟩]⟩) ⟨none⟩
        "ann" "secret1" =
      .ok ⟨.redirectDashboard, some ("Welcome back, pixel warrior!", "success"),
           ⟨some (py_strip "ann")⟩,
           .ok ⟨[] ++ [⟨(py_strip "ann"), generate_password_hash "abc" "secret1"⟩]⟩⟩ :=
  register_fresh_then_login (.ok ⟨[]⟩) ⟨none⟩ ⟨none⟩ "abc" "ann" "secret1" ⟨[]⟩
    (by decide) rfl rfl (by decide) (by decide)

/-- C2 counterexample: the durable file exists but cannot be opened (for
example a permission error).  `load_users` only catches `FileNotFoundError`
and `json.JSONDecodeError`, so the `OSError` propagates out of `loadAll`
instead of being logged and recovered. -/
theorem load_users_unreadable_raises :
    load_users .unreadable = .error .osError ∧ load_users_logs .unreadable = [] :=
  ⟨rfl, rfl⟩

/-- C2 amended: `loadAll` returns the empty sequence when the durable file
is missing, and when the file can be opened but is not parseable it logs
the failure and returns the empty sequence; but an existing file that
cannot be opened raises instead of being recovered. -/
theorem load_users_missing_or_corrupt_empty :
    load_users .missing = .ok ⟨[]⟩ ∧
    load_users_logs .missing = [] ∧
    load_users .corrupt = .ok ⟨[]⟩ ∧
    load_users_logs .corrupt = ["Error decoding users.json"] :=
  ⟨rfl, rfl, rfl, rfl⟩

/-- C4: for a registered user (stored hash generated from a password the
supplied one differs from) the login failure is the same flash message,
with the same category and response, as for an unknown username. -/
theorem login_failure_message_uniform
    (file file2 : StoreFile) (sess sess2 : Session) (raw raw2 p p2 salt realpw : String)
    (rec : UserRecord)
    (hs : '$' ∉ salt.data)
    (hu : py_strip raw ≠ "") (hp : p ≠ "")
    (hu2 : py_strip raw2 ≠ "") (hp2 : p2 ≠ "")
    (hfound : find_user file (py_strip raw) = .ok (some rec))
    (hhash : rec.password_hash = generate_password_hash salt realpw)
    (hwrong : p ≠ realpw)
    (habs : find_user file2 (py_strip raw2) = .ok none) :
    login_post file sess raw p =
      .ok ⟨.renderLogin, some ("Invalid credentials. Try again!", "error"), sess, file⟩ ∧
    login_post file2 sess2 raw2 p2 =
      .ok ⟨.renderLogin, some ("Invalid credentials. Try again!", "error"), sess2, file2⟩ := by
  refine ⟨login_post_fail_wrong_password file sess raw p rec hu hp hfound ?_,
         login_post_fail_unknown file2 sess2 raw2 p2 hu2 hp2 habs⟩
  rw [hhash]
  exact check_generate_ne salt realpw p hs hwrong

/-- Witness for C4: store with user `"bob"`, `login("bob", "wrongpw")` and
`login("eve", "whatever")` against an empty store. -/
theorem login_failure_message_uniform_witness :
    login_post (.ok ⟨[⟨"bob", generate_password_hash "s1" "hunter2"⟩]⟩) ⟨none⟩
        "bob" "wrongpw" =
      .ok ⟨.renderLogin, some ("Invalid credentials. Try again!", "error"), ⟨none⟩,
           .ok ⟨[⟨"bob", generate_password_hash "s1" "hunter2"⟩]⟩⟩ ∧
    login_post (.ok ⟨[]⟩) ⟨none⟩ "eve" "whatever" =
      .ok ⟨.renderLogin, some ("Invalid credentials. Try again!", "error"), ⟨none⟩, .ok ⟨[]⟩⟩ :=
  login_failure_message_uniform (.ok ⟨[⟨"bob", generate_password_hash "s1" "hunter2"⟩]⟩)
    (.ok ⟨[]⟩) ⟨none⟩ ⟨none⟩ "bob" "eve" "wrongpw" "whatever" "s1" "hunter2"
    ⟨"bob", generate_password_hash "s1" "hunter2"⟩
    (by decide) (by decide) (by decide) (by decide) (by decide)
    rfl rfl (by decide) rfl

/-- C7: overwriting the store with what was just loaded and loading again
yields the same sequence of records (for any readable file state, and
whether or not the write itself succeeds). -/
theorem save_load_roundtrip (file : StoreFile) (writeOk : Bool) (d : UsersData)
    (hload : load_users file = .ok d) :
    load_users (save_users file writeOk d) = .ok d := by
  cases writeOk with
  | true => simp [save_users, load_users]
  | false => simpa [save_users] using hload

/-- Witness for C7: a corrupt file loads as empty; saving that and loading
again still yields the empty sequence. -/
theorem save_load_roundtrip_witness :
    load_users (save_users .corrupt true ⟨[]⟩) = .ok ⟨[]⟩ :=
  save_load_roundtrip .corrupt true ⟨[]⟩ rfl

/-- C8: `save_users` never signals failure to its caller (a failed write is
only logged and leaves the durable file as it was), and `register` returns
the same success response, flash and session identity whether or not the
durable write succeeded. -/
theorem register_reports_success_despite_write_failure
    (file : StoreFile) (sess : Session) (salt raw p : String) (d : UsersData)
    (hload : load_users file = .ok d)
    (habs : d.users.find? (fun u => u.username = py_strip raw) = none)
    (hul : 3 ≤ (py_strip raw).length) (hpl : 6 ≤ p.length) :
    (∀ writeOk : Bool,
      register file sess salt writeOk raw p =
        .ok ⟨.redirectDashboard, some ("Account created successfully! Welcome!", "success"),
             ⟨some (py_strip raw)⟩,
             save_users file writeOk
               ⟨d.users ++ [⟨py_strip raw, generate_password_hash salt p⟩]⟩⟩) ∧
    save_users file false ⟨d.users ++ [⟨py_strip raw, generate_password_hash salt p⟩]⟩ = file ∧
    save_users_logs false = ["Error saving users"] :=
  ⟨fun writeOk => register_ok file sess salt writeOk raw p d hload habs hul hpl,
   by simp [save_users], rfl⟩

/-- Witness for C8: registering `"ann"` on an empty store with the durable
write failing still reports success. -/
theorem register_reports_success_despite_write_failure_witness :
    (∀ writeOk : Bool,
      register (.ok ⟨[]⟩) ⟨none⟩ "abc" writeOk "ann" "secret1" =
        .ok ⟨.redirectDashboard, some ("Account created successfully! Welcome!", "success"),
             ⟨some (py_strip "ann")⟩,
             save_users (.ok ⟨[]⟩) writeOk
               ⟨[] ++ [⟨py_strip "ann", generate_password_hash "abc" "secret1"⟩]⟩⟩) ∧
    save_users (.ok ⟨[]⟩) false
        ⟨[] ++ [⟨py_strip "ann", generate_password_hash "abc" "secret1"⟩]⟩ = .ok ⟨[]⟩ ∧
    save_users_logs false = ["Error saving users"] :=
  register_reports_success_despite_write_failure (.ok ⟨[]⟩) ⟨none⟩ "abc" "ann" "secret1"
    ⟨[]⟩ rfl rfl (by decide) (by decide)

/-- C9: an anonymous client is never served a protected resource: the
dashboard redirects to the login page, and both proxy API endpoints reject
with the authentication-required error, whatever the rest of the request
looks like. -/
theorem anonymous_never_served
    (file : StoreFile) (sess : Session) (uid uid2 : String) (up up2 : Upstream)
    (h : sess.username = none) :
    dashboard file sess =
      ⟨.redirectLogin, some ("Please log in first", "error"), sess, file⟩ ∧
    send_like sess uid up = .failure "Not authenticated" 401 ∧
    view_profile sess uid2 up2 = .failure "Not authenticated" 401 := by
  cases sess with
  | mk u =>
    cases h
    exact ⟨rfl, rfl, rfl⟩

/-- Witness for C9 at a concrete anonymous request. -/
theorem anonymous_never_served_witness :
    dashboard (.ok ⟨[]⟩) ⟨none⟩ =
      ⟨.redirectLogin, some ("Please log in first", "error"), ⟨none⟩, .ok ⟨[]⟩⟩ ∧
    send_like ⟨none⟩ "123456" (.status 200) = .failure "Not authenticated" 401 ∧
    view_profile ⟨none⟩ "123456" (.status 200) = .failure "Not authenticated" 401 :=
  anonymous_never_served (.ok ⟨[]⟩) ⟨none⟩ "123456" "123456" (.status 200) (.status 200) rfl

/-- C3: the four `register` validation checks run in the fixed order
(empty fields, username length, password length, duplicate username); the
first failing check determines the flash error regardless of the later
checks, which are not consulted. -/
theorem register_validation_order
    (file : StoreFile) (sess : Session) (salt : String) (writeOk : Bool) (raw p : String) :
    ((py_strip raw = "" ∨ p = "") →
      register file sess salt writeOk raw p =
        .ok ⟨.redirectLogin, some ("Please fill in all fields", "error"), sess, file⟩) ∧
    (¬(py_strip raw = "" ∨ p = "") → (py_strip raw).length < 3 →
      register file sess salt writeOk raw p =
        .ok ⟨.redirectLogin, some ("Username must be at least 3 characters", "error"),
             sess, file⟩) ∧
    (¬(py_strip raw = "" ∨ p = "") → ¬(py_strip raw).length < 3 → p.length < 6 →
      register file sess salt writeOk raw p =
        .ok ⟨.redirectLogin, some ("Password must be at least 6 characters", "error"),
             sess, file⟩) ∧
    (∀ rec : UserRecord, ¬(py_strip raw = "" ∨ p = "") → ¬(py_strip raw).length < 3 →
      ¬p.length < 6 → find_user file (py_strip raw) = .ok (some rec) →
      register file sess salt writeOk raw p =
        .ok ⟨.redirectLogin, some ("Username already exists", "error"), sess, file⟩) :=
  ⟨register_empty_fields file sess salt writeOk raw p,
   register_short_username file sess salt writeOk raw p,
   register_short_password file sess salt writeOk raw p,
   fun rec => register_duplicate file sess salt writeOk raw p rec⟩

/-- Witness for C3: one concrete request per validation branch. -/
theorem register_validation_order_witness :
    register .missing ⟨none⟩ "s" true "" "secret1" =
      .ok ⟨.redirectLogin, some ("Please fill in all fields", "error"), ⟨none⟩, .missing⟩ ∧
    register .missing ⟨none⟩ "s" true "ab" "secret1" =
      .ok ⟨.redirectLogin, some ("Username must be at least 3 characters", "error"),
           ⟨none⟩, .missing⟩ ∧
    register .missing ⟨none⟩ "s" true "bob" "12345" =
      .ok ⟨.redirectLogin, some ("Password must be at least 6 characters", "error"),
           ⟨none⟩, .missing⟩ ∧
    register (.ok ⟨[⟨"bob", "h"⟩]⟩) ⟨none⟩ "s" true "bob" "secret1" =
      .ok ⟨.redirectLogin, some ("Username already exists", "error"), ⟨none⟩,
           .ok ⟨[⟨"bob", "h"⟩]⟩⟩ :=
  ⟨(register_validation_order .missing ⟨none⟩ "s" true "" "secret1").1 (by decide),
   (register_validation_order .missing ⟨none⟩ "s" true "ab" "secret1").2.1
     (by decide) (by decide),
   (register_validation_order .missing ⟨none⟩ "s" true "bob" "12345").2.2.1
     (by decide) (by decide) (by decide),
   (register_validation_order (.ok ⟨[⟨"bob", "h"⟩]⟩) ⟨none⟩ "s" true "bob" "secret1").2.2.2
     ⟨"bob", "h"⟩ (by decide) (by decide) (by decide) rfl⟩

/-- C5: a `register` on a username already present fails with the duplicate
ValidationError and returns the durable store unchanged, and every
completed `login_post` — in particular a failing one — returns the durable
store it was given. -/
theorem failing_ops_leave_store_unchanged
    (file : StoreFile) (sess : Session) (salt : String) (writeOk : Bool) (raw p : String)
    (rec : UserRecord)
    (hul : 3 ≤ (py_strip raw).length) (hpl : 6 ≤ p.length)
    (hdup : find_user file (py_strip raw) = .ok (some rec)) :
    register file sess salt writeOk raw p =
      .ok ⟨.redirectLogin, some ("Username already exists", "error"), sess, file⟩ ∧
    ∀ (file2 : StoreFile) (sess2 : Session) (raw2 p2 : String) (res : HResult),
      login_post file2 sess2 raw2 p2 = .ok res → res.file = file2 := by
  have hu : py_strip raw ≠ "" := str_ne_empty_of_le _ 3 (by omega) hul
  have hp : p ≠ "" := str_ne_empty_of_le _ 6 (by omega) hpl
  refine ⟨register_duplicate file sess salt writeOk raw p rec (by simp [hu, hp])
    (by omega) (by omega) hdup, ?_⟩
  intro file2 sess2 raw2 p2 res h
  exact login_post_file_unchanged file2 sess2 raw2 p2 res h

/-- Witness for C5 at the spec's scenario: a store with user `"bob"`,
a duplicate registration and a wrong-password login. -/
theorem failing_ops_leave_store_unchanged_witness :
    register (.ok ⟨[⟨"bob", generate_password_hash "s1" "hunter2"⟩]⟩) ⟨none⟩ "s2" true
        "bob" "secret1" =
      .ok ⟨.redirectLogin, some ("Username already exists", "error"), ⟨none⟩,
           .ok ⟨[⟨"bob", generate_password_hash "s1" "hunter2"⟩]⟩⟩ ∧
    (login_post (.ok ⟨[⟨"bob", generate_password_hash "s1" "hunter2"⟩]⟩) ⟨none⟩
        "bob" "wrongpw" =
      .ok ⟨.renderLogin, some ("Invalid credentials. Try again!", "error"), ⟨none⟩,
           .ok ⟨[⟨"bob", generate_password_hash "s1" "hunter2"⟩]⟩⟩ →
    (HResult.mk .renderLogin (some ("Invalid credentials. Try again!", "error")) ⟨none⟩
        (.ok ⟨[⟨"bob", generate_password_hash "s1" "hunter2"⟩]⟩)).file =
      .ok ⟨[⟨"bob", generate_password_hash "s1" "hunter2"⟩]⟩) :=
  have h := failing_ops_leave_store_unchanged
    (.ok ⟨[⟨"bob", generate_password_hash "s1" "hunter2"⟩]⟩) ⟨none⟩ "s2" true
    "bob" "secret1" ⟨"bob", generate_password_hash "s1" "hunter2"⟩
    (by decide) (by decide) rfl
  ⟨h.1, fun hl => h.2 _ ⟨none⟩ "bob" "wrongpw" _ hl⟩

/-- C6: the exact length boundaries of `register`: a stripped username of
length 2 fails validation while length 3 can never produce the
username-length error, and a password of length 5 fails validation while
length 6 can never produce the password-length error. -/
theorem register_length_boundaries
    (file : StoreFile) (sess : Session) (salt : String) (writeOk : Bool) (raw p : String) :
    (p ≠ "" → (py_strip raw).length = 2 →
      register file sess salt writeOk raw p =
        .ok ⟨.redirectLogin, some ("Username must be at least 3 characters", "error"),
             sess, file⟩) ∧
    ((py_strip raw).length = 3 →
      ∀ res : HResult, register file sess salt writeOk raw p = .ok res →
        res.flash ≠ some ("Username must be at least 3 characters", "error")) ∧
    (3 ≤ (py_strip raw).length → p.length = 5 →
      register file sess salt writeOk raw p =
        .ok ⟨.redirectLogin, some ("Password must be at least 6 characters", "error"),
             sess, file⟩) ∧
    (p.length = 6 →
      ∀ res : HResult, register file sess salt writeOk raw p = .ok res →
        res.flash ≠ some ("Password must be at least 6 characters", "error")) := by
  refine ⟨?_, ?_, ?_, ?_⟩
  · intro hp hlen
    have hu : py_strip raw ≠ "" := str_ne_empty_of_le _ 2 (by omega) (by omega)
    exact register_short_username file sess salt writeOk raw p (by simp [hu, hp]) (by omega)
  · intro hlen res h hflash
    rcases register_flash_cases file sess salt writeOk raw p res h with
      ⟨hf, _⟩ | ⟨_, hc⟩ | ⟨hf, _⟩ | hf | hf
    · rw [hflash] at hf; exact absurd (Option.some.inj hf) (by decide)
    · omega
    · rw [hflash] at hf; exact absurd (Option.some.inj hf) (by decide)
    · rw [hflash] at hf; exact absurd (Option.some.inj hf) (by decide)
    · rw [hflash] at hf; exact absurd (Option.some.inj hf) (by decide)
  · intro hul hlen
    have hu : py_strip raw ≠ "" := str_ne_empty_of_le _ 3 (by omega) hul
    have hp : p ≠ "" := str_ne_empty_of_le _ 5 (by omega) (by omega)
    exact register_short_password file sess salt writeOk raw p (by simp [hu, hp])
      (by omega) (by omega)
  · intro hlen res h hflash
    rcases register_flash_cases file sess salt writeOk raw p res h with
      ⟨hf, _⟩ | ⟨hf, _⟩ | ⟨_, hc⟩ | hf | hf
    · rw [hflash] at hf; exact absurd (Option.some.inj hf) (by decide)
    · rw [hflash] at hf; exact absurd (Option.some.inj hf) (by decide)
    · omega
    · rw [hflash] at hf; exact absurd (Option.some.inj hf) (by decide)
    · rw [hflash] at hf; exact absurd (Option.some.inj hf) (by decide)

/-- Witness for C6 at the four boundary inputs: usernames `"ab"`/`"abc"`
and passwords `"12345"`/`"123456"`. -/
theorem register_length_boundaries_witness :
    register .missing ⟨none⟩ "s" true "ab" "secret1" =
      .ok ⟨.redirectLogin, some ("Username must be at least 3 characters", "error"),
           ⟨none⟩, .missing⟩ ∧
    (register .missing ⟨none⟩ "s" true "abc" "secret1" =
        .ok ⟨.redirectDashboard, some ("Account created successfully! Welcome!", "success"),
             ⟨some (py_strip "abc")⟩,
             .ok ⟨[] ++ [⟨py_strip "abc", generate_password_hash "s" "secret1"⟩]⟩⟩ →
      (HResult.mk .redirectDashboard
          (some ("Account created successfully! Welcome!", "success"))
          ⟨some (py_strip "abc")⟩
          (.ok ⟨[] ++ [⟨py_strip "abc", generate_password_hash "s" "secret1"⟩]⟩)).flash ≠
        some ("Username must be at least 3 characters", "error")) ∧
    register .missing ⟨none⟩ "s" true "bob" "12345" =
      .ok ⟨.redirectLogin, some ("Password must be at least 6 characters", "error"),
           ⟨none⟩, .missing⟩ ∧
    (register .missing ⟨none⟩ "s" true "bob" "123456" =
        .ok ⟨.redirectDashboard, some ("Account created successfully! Welcome!", "success"),
             ⟨some (py_strip "bob")⟩,
             .ok ⟨[] ++ [⟨py_strip "bob", generate_password_hash "s" "123456"⟩]⟩⟩ →
      (HResult.mk .redirectDashboard
          (some ("Account created successfully! Welcome!", "success"))
          ⟨some (py_strip "bob")⟩
          (.ok ⟨[] ++ [⟨py_strip "bob", generate_password_hash "s" "123456"⟩]⟩)).flash ≠
        some ("Password must be at least 6 characters", "error")) :=
  ⟨(register_length_boundaries .missing ⟨none⟩ "s" true "ab" "secret1").1
     (by decide) (by decide),
   fun h => (register_length_boundaries .missing ⟨none⟩ "s" true "abc" "secret1").2.1
     (by decide) _ h,
   (register_length_boundaries .missing ⟨none⟩ "s" true "bob" "12345").2.2.1
     (by decide) (by decide),
   fun h => (register_length_boundaries .missing ⟨none⟩ "s" true "bob" "123456").2.2.2
     (by decide) _ h⟩

/-- C10: both handlers strip the username before any check (their outcome
depends only on the stripped username), while the password is used
verbatim: a whitespace-only password of length 6 registers successfully,
and login verifies exactly the untrimmed password that was registered —
the stripped variant of a whitespace-padded password is rejected. -/
theorem username_stripped_password_verbatim
    (file : StoreFile) (sess : Session) (salt : String) (writeOk : Bool)
    (raw1 raw2 rawc rawd p p0 : String) (d : UsersData) (rec : UserRecord)
    (hs : '$' ∉ salt.data) :
    (py_strip raw1 = py_strip raw2 →
      register file sess salt writeOk raw1 p = register file sess salt writeOk raw2 p) ∧
    (py_strip raw1 = py_strip raw2 →
      login_post file sess raw1 p = login_post file sess raw2 p) ∧
    ((∀ c ∈ p.data, c.isWhitespace = true) → 6 ≤ p.length →
      load_users file = .ok d →
      d.users.find? (fun u => u.username = py_strip rawc) = none →
      3 ≤ (py_strip rawc).length →
      register file sess salt true rawc p =
        .ok ⟨.redirectDashboard, some ("Account created successfully! Welcome!", "success"),
             ⟨some (py_strip rawc)⟩,
             .ok ⟨d.users ++ [⟨py_strip rawc, generate_password_hash salt p⟩]⟩⟩) ∧
    (py_strip p0 ≠ p0 → py_strip p0 ≠ "" → py_strip rawd ≠ "" →
      find_user file (py_strip rawd) = .ok (some rec) →
      rec.password_hash = generate_password_hash salt p0 →
      login_post file sess rawd p0 =
        .ok ⟨.redirectDashboard, some ("Welcome back, pixel warrior!", "success"),
             ⟨some (py_strip rawd)⟩, file⟩ ∧
      login_post file sess rawd (py_strip p0) =
        .ok ⟨.renderLogin, some ("Invalid credentials. Try again!", "error"),
             sess, file⟩) := by
  refine ⟨?_, ?_, ?_, ?_⟩
  · intro h
    simp only [register]
    rw [h]
  · intro h
    simp only [login_post]
    rw [h]
  · intro _ hpl hload habs hul
    rw [register_ok file sess salt true rawc p d hload habs hul hpl]
    simp [save_users]
  · intro hpad hps hu hfound hhash
    have hp0 : p0 ≠ "" := fun he => hpad (by rw [he]; decide)
    refine ⟨login_post_ok file sess rawd p0 rec hu hp0 hfound ?_,
           login_post_fail_wrong_password file sess rawd (py_strip p0) rec hu hps hfound ?_⟩
    · rw [hhash]; exact check_generate_self salt p0 hs
    · rw [hhash]; exact check_generate_ne salt p0 (py_strip p0) hs hpad

/-- Witness for C10: `" ann "` and `"ann"` behave alike; the six-space
password registers; `"bob"` logs in with `" hunter2 "` but not with
`"hunter2"`. -/
theorem username_stripped_password_verbatim_witness :
    (register (.ok ⟨[⟨"bob", generate_password_hash "s1" " hunter2 "⟩]⟩) ⟨none⟩ "s1" true
        " ann " "      " =
      register (.ok ⟨[⟨"bob", generate_password_hash "s1" " hunter2 "⟩]⟩) ⟨none⟩ "s1" true
        "ann" "      ") ∧
    (login_post (.ok ⟨[⟨"bob", generate_password_hash "s1" " hunter2 "⟩]⟩) ⟨none⟩
        " ann " "      " =
      login_post (.ok ⟨[⟨"bob", generate_password_hash "s1" " hunter2 "⟩]⟩) ⟨none⟩
        "ann" "      ") ∧
    register (.ok ⟨[⟨"bob", generate_password_hash "s1" " hunter2 "⟩]⟩) ⟨none⟩ "s1" true
        "ann" "      " =
      .ok ⟨.redirectDashboard, some ("Account created successfully! Welcome!", "success"),
           ⟨some (py_strip "ann")⟩,
           .ok ⟨[⟨"bob", generate_password_hash "s1" " hunter2 "⟩] ++
                [⟨py_strip "ann", generate_password_hash "s1" "      "⟩]⟩⟩ ∧
    login_post (.ok ⟨[⟨"bob", generate_password_hash "s1" " hunter2 "⟩]⟩) ⟨none⟩
        "bob" " hunter2 " =
      .ok ⟨.redirectDashboard, some ("Welcome back, pixel warrior!", "success"),
           ⟨some (py_strip "bob")⟩,
           .ok ⟨[⟨"bob", generate_password_hash "s1" " hunter2 "⟩]⟩⟩ ∧
    login_post (.ok ⟨[⟨"bob", generate_password_hash "s1" " hunter2 "⟩]⟩) ⟨none⟩
        "bob" (py_strip " hunter2 ") =
      .ok ⟨.renderLogin, some ("Invalid credentials. Try again!", "error"), ⟨none⟩,
           .ok ⟨[⟨"bob", generate_password_hash "s1" " hunter2 "⟩]⟩⟩ :=
  have h := username_stripped_password_verbatim
    (.ok ⟨[⟨"bob", generate_password_hash "s1" " hunter2 "⟩]⟩) ⟨none⟩ "s1" true
    " ann " "ann" "ann" "bob" "      " " hunter2 "
    ⟨[⟨"bob", generate_password_hash "s1" " hunter2 "⟩]⟩
    ⟨"bob", generate_password_hash "s1" " hunter2 "⟩ (by decide)
  have h4 := h.2.2.2 (by decide) (by decide) (by decide) rfl rfl
  ⟨h.1 (by decide), h.2.1 (by decide),
   h.2.2.1 (by decide) (by decide) rfl (by decide) (by decide),
   h4.1, h4.2⟩

